import Mathlib

/-!
Verification of the AeroInsights flight-analysis pipeline
(`src/workspace/analysis.py`).

Tables are modelled as lists of records.  A missing CSV value (pandas `NaN`)
is `Option.none`; float columns are modelled as rationals.  `groupby` with
pandas' default `sort=True` lists the distinct keys in ascending order and
drops rows whose key is missing.  `sort_values(..., ascending=False)` sorts
the column descending with missing values last (pandas' default
`na_position` puts `NaN` at the end); pandas' default `kind='quicksort'`
leaves the relative order of tied rows unspecified (pandas documents only
`mergesort`/`stable` as stable), so the executable model has to fix some
deterministic tie order and uses input order — no theorem below depends on
that choice.
-/

namespace AeroInsights

/-- A row of the `flights2022.csv` table.  The `route` column does not exist
until `preprocess_data` creates it, hence its default of `none`. -/
structure FlightRow where
  origin : Option String
  dest : Option String
  airline : Option String
  dep_time : Option ℚ
  dep_delay : Option ℚ
  route : Option String := none
  deriving DecidableEq, Repr

/-- A row of the `flights_weather2022.csv` table.  The `wind_group` column
does not exist until `analyze_wind_impact` creates it. -/
structure WeatherRow where
  origin : Option String
  dest : Option String
  airline : Option String
  dep_time : Option ℚ
  dep_delay : Option ℚ
  wind_gust : Option ℚ
  wind_group : Option String := none
  deriving DecidableEq, Repr

/-- A row of a route or airline aggregate table (`key` is the grouping
value: the route string or the airline identifier). -/
structure AggRow where
  key : String
  mean_dep_delay : Option ℚ
  total_cancellations : ℕ
  deriving DecidableEq, Repr

/-- A row of the wind summary table: `groupby("wind_group")["dep_delay"]
.agg(['mean', 'count'])`.  pandas' `count` counts the non-missing
`dep_delay` values of the group. -/
structure WindSummaryRow where
  key : String
  mean : Option ℚ
  count : ℕ
  deriving DecidableEq, Repr

/-- `TOP_N = 9` (line 22 of `analysis.py`). -/
def TOP_N : ℕ := 9

/-- Line 49: `flights_df["route"] = flights_df["origin"] + "-" + flights_df["dest"]`.
pandas string addition with a missing operand produces a missing value. -/
def addRoute (r : FlightRow) : FlightRow :=
  { r with route := match r.origin, r.dest with
      | some o, some d => some (o ++ "-" ++ d)
      | _, _ => none }

/-- `preprocess_data` (lines 44-52): adds the `route` column to every row of
the caller's table and returns that same (updated) table. -/
def preprocess_data (flights_df : List FlightRow) : List FlightRow :=
  flights_df.map addRoute

/-- The pandas `mean` aggregation over a column: the arithmetic mean of the
values that are present; `none` (NaN) when no value is present. -/
def mean_list (xs : List ℚ) : Option ℚ :=
  if xs = [] then none else some (xs.sum / xs.length)

/-- The distinct group keys of a `groupby` column, in ascending order
(pandas' default `sort=True`). -/
def groupKeys (keys : List String) : List String :=
  keys.dedup.insertionSort (· ≤ ·)

/-- The shared body of `analyze_routes` and `analyze_airlines` (lines 59-62
and 82-85): `groupby(col).agg(mean_dep_delay=("dep_delay", "mean"),
total_cancellations=("dep_time", lambda x: x.isna().sum())).reset_index()`.
Rows whose grouping key is missing are dropped by `groupby`. -/
def aggBy (keyOf : FlightRow → Option String) (df : List FlightRow) : List AggRow :=
  (groupKeys (df.filterMap keyOf)).map fun k =>
    let g := df.filter fun r => decide (keyOf r = some k)
    { key := k
      mean_dep_delay := mean_list (g.filterMap (·.dep_delay))
      total_cancellations := g.countP fun r => r.dep_time.isNone }

/-- The sort key used when ranking by `mean_dep_delay`: a missing mean (NaN)
goes to the bottom, matching pandas' `na_position='last'` under
`ascending=False`. -/
def delayKey (a : AggRow) : WithBot ℚ :=
  match a.mean_dep_delay with
  | none => ⊥
  | some q => (q : WithBot ℚ)

/-- The sort key used when ranking by `total_cancellations`. -/
def cancelKey (a : AggRow) : ℕ :=
  a.total_cancellations

/-- `df.sort_values(col, ascending=False)`: descending sort on the given
column, missing values last.  The source uses pandas' default
`kind='quicksort'`, for which the order of tied rows is unspecified (not
stable); an executable embedding must pick one deterministic order, and
this one uses `List.insertionSort`, which keeps ties in input order.  Only
the unspecified tie order distinguishes it from the program, and no
theorem in this file appeals to the tie order. -/
def sortValuesDesc {β : Type} [LinearOrder β] (val : AggRow → β)
    (t : List AggRow) : List AggRow :=
  t.insertionSort fun a b => val b ≤ val a

/-- `analyze_routes` (lines 54-75): the aggregate table, the top `TOP_N`
routes by mean delay and the top `TOP_N` routes by cancellations. -/
def analyze_routes (flights_df : List FlightRow) :
    List AggRow × List AggRow × List AggRow :=
  let routes_delays_cancels := aggBy (·.route) flights_df
  let top_routes_by_delay := (sortValuesDesc delayKey routes_delays_cancels).take TOP_N
  let top_routes_by_cancellations :=
    (sortValuesDesc cancelKey routes_delays_cancels).take TOP_N
  (routes_delays_cancels, top_routes_by_delay, top_routes_by_cancellations)

/-- `analyze_airlines` (lines 77-96): same aggregation shape, grouped by
the `airline` column. -/
def analyze_airlines (flights_df : List FlightRow) :
    List AggRow × List AggRow × List AggRow :=
  let airlines_delays_cancels := aggBy (·.airline) flights_df
  let top_airlines_by_delay :=
    (sortValuesDesc delayKey airlines_delays_cancels).take TOP_N
  let top_airlines_by_cancellations :=
    (sortValuesDesc cancelKey airlines_delays_cancels).take TOP_N
  (airlines_delays_cancels, top_airlines_by_delay, top_airlines_by_cancellations)

/-- Lines 103-105: `lambda x: ">= 10mph" if x >= 10 else "< 10mph"`.
In Python a comparison with `NaN` is `False`, so a missing gust value falls
into the `else` branch. -/
def windGroupOf : Option ℚ → String
  | some x => if 10 ≤ x then ">= 10mph" else "< 10mph"
  | none => "< 10mph"

/-- The distinct `(wind_group, origin)` keys, in ascending lexicographic
order (pandas `groupby` on two columns, `sort=True`). -/
def windPairKeys (ps : List (String × String)) : List (String × String) :=
  ps.dedup.insertionSort fun p q => p.1 < q.1 ∨ (p.1 = q.1 ∧ p.2 ≤ q.2)

/-- `analyze_wind_impact` (lines 98-122).  The first component is the
caller's table after the call: line 103 assigns the new `wind_group` column
in place, so the caller's object gains the column.  The second component is
the detailed view grouped by `(wind_group, origin)`; the third is the
summary view grouped by `wind_group` alone. -/
def analyze_wind_impact (flights_weather_df : List WeatherRow) :
    List WeatherRow × List ((String × String) × Option ℚ) × List WindSummaryRow :=
  let df := flights_weather_df.map fun r =>
    { r with wind_group := some (windGroupOf r.wind_gust) }
  let pairs := df.filterMap fun r =>
    match r.wind_group, r.origin with
    | some g, some o => some (g, o)
    | _, _ => none
  let wind_grouped_data := (windPairKeys pairs).map fun p =>
    let g := df.filter fun r => decide (r.wind_group = some p.1 ∧ r.origin = some p.2)
    (p, mean_list (g.filterMap (·.dep_delay)))
  let wind_summary := (groupKeys (df.filterMap (·.wind_group))).map fun k =>
    let g := df.filter fun r => decide (r.wind_group = some k)
    { key := k
      mean := mean_list (g.filterMap (·.dep_delay))
      count := (g.filterMap (·.dep_delay)).length }
  (df, wind_grouped_data, wind_summary)

/-- A string of `n` copies of the character `c` (Python `"="*60` etc.). -/
def repChar (c : Char) (n : ℕ) : String :=
  String.mk (List.replicate n c)

/-- Round to the nearest integer, ties to the even integer: the rounding
used by Python `format(x, '.1f')`.  (Python formats binary doubles; the
model works on the rational value.) -/
def roundHalfEven (x : ℚ) : ℤ :=
  let f := ⌊x⌋
  if x - f < 1 / 2 then f
  else if 1 / 2 < x - f then f + 1
  else if f % 2 = 0 then f else f + 1

/-- One-decimal fixed formatting of a non-negative rational. -/
def fmtNonneg (x : ℚ) : String :=
  let n := (roundHalfEven (x * 10)).toNat
  toString (n / 10) ++ "." ++ toString (n % 10)

/-- Python `f"{x:.1f}"` on a (possibly negative) number. -/
def fmt1 (x : ℚ) : String :=
  if x < 0 then "-" ++ fmtNonneg (-x) else fmtNonneg x

/-- Python `f"{x:.1f}"` on a float column entry: `NaN` renders as `"nan"`. -/
def fmtOpt1 : Option ℚ → String
  | none => "nan"
  | some x => fmt1 x

/-- `wind_summary.loc[k, 'mean']` (lines 224-225): a scalar lookup by index
key.  It raises `KeyError` when the key is absent, and it only yields a
scalar usable by the `:.1f` format when the key matches exactly one row
(the keys of a `groupby` result are unique). -/
def locMean (ws : List WindSummaryRow) (k : String) : Except String (Option ℚ) :=
  match ws.filter fun r => decide (r.key = k) with
  | [r] => Except.ok r.mean
  | _ => Except.error ("lookup failure: " ++ k)

/-- The `report` list of lines (lines 204-225) joined with `"\n"`
(line 227): the full report text given the three extracted top-1 rows and
the two wind-group means. -/
def report_text (worst_route worst_cancel_route worst_airline : AggRow)
    (hi lo : Option ℚ) : String :=
  String.intercalate "\n"
    [ repChar '=' 60,
      "FLIGHT DELAY AND CANCELLATION ANALYSIS REPORT",
      repChar '=' 60,
      "",
      "TOP FINDINGS:",
      repChar '-' 20,
      "• Worst route for delays: " ++ worst_route.key ++ " (" ++
        fmtOpt1 worst_route.mean_dep_delay ++ " min)",
      "• Route with most cancellations: " ++ worst_cancel_route.key ++ " (" ++
        toString worst_cancel_route.total_cancellations ++ " flights)",
      "• Airline with highest delays: " ++ worst_airline.key ++ " (" ++
        fmtOpt1 worst_airline.mean_dep_delay ++ " min)",
      "• Wind impact: High winds (≥10mph) cause " ++ fmtOpt1 hi ++ " min delays",
      "                Low winds (<10mph) cause " ++ fmtOpt1 lo ++ " min delays" ]

/-- `generate_summary_report` (lines 200-234).  On success it returns the
pair `(printed, written)`: `printed` is what `print("\n" + report_text)`
sends to standard output (the argument plus the trailing newline that
`print` appends), `written` is what `f.write(report_text)` puts in
`results/analysis_summary.txt`.  `iloc[0]` on an empty ranked table and a
failed `wind_summary.loc` lookup raise, in the order the source evaluates
them, and abort before the file write. -/
def generate_summary_report
    (routes_stats : List AggRow × List AggRow × List AggRow)
    (airlines_stats : List AggRow × List AggRow × List AggRow)
    (wind_summary : List WindSummaryRow) : Except String (String × String) :=
  match routes_stats.2.1 with
  | [] => Except.error "iloc failure: top_routes_by_delay"
  | worst_route :: _ =>
    match routes_stats.2.2 with
    | [] => Except.error "iloc failure: top_routes_by_cancellations"
    | worst_cancel_route :: _ =>
      match airlines_stats.2.1 with
      | [] => Except.error "iloc failure: top_airlines_by_delay"
      | worst_airline :: _ =>
        match locMean wind_summary ">= 10mph" with
        | Except.error e => Except.error e
        | Except.ok hi =>
          match locMean wind_summary "< 10mph" with
          | Except.error e => Except.error e
          | Except.ok lo =>
            Except.ok ("\n" ++ report_text worst_route worst_cancel_route worst_airline hi lo ++ "\n",
              report_text worst_route worst_cancel_route worst_airline hi lo)

/-- `main` (lines 236-263), restricted to the data flow: load is taken as
the two input tables, the three plot renderers consume the aggregates
without producing data.  The result collects every aggregate table and the
report generator's outcome. -/
def pipeline (flights2022 : List FlightRow) (flights_weather2022 : List WeatherRow) :
    (List AggRow × List AggRow × List AggRow) ×
    (List AggRow × List AggRow × List AggRow) ×
    (List WeatherRow × List ((String × String) × Option ℚ) × List WindSummaryRow) ×
    Except String (String × String) :=
  let flights_df := preprocess_data flights2022
  let routes_stats := analyze_routes flights_df
  let airlines_stats := analyze_airlines flights_df
  let wind := analyze_wind_impact flights_weather2022
  (routes_stats, airlines_stats, wind,
    generate_summary_report routes_stats airlines_stats wind.2.2)

/-! ### Sorting lemmas

`sortValuesDesc` is `List.insertionSort` with the relation
`fun a b => val b ≤ val a`.  Only the properties below — descending
sortedness (missing values last) and being a permutation of the input —
are guarantees of `sort_values` itself; they hold for every sort kind
pandas offers.  The order of tied rows is NOT among them: the program's
default `kind='quicksort'` leaves it unspecified, and the embedding's
insertion-order tie-break is a choice of the model only (see the note on
`sortValuesDesc`), which no theorem in this file relies on. -/

theorem sortValuesDesc_sorted {β : Type} [LinearOrder β] (val : AggRow → β)
    (t : List AggRow) :
    (sortValuesDesc val t).Sorted fun a b => val b ≤ val a := by
  haveI : IsTotal AggRow fun a b => val b ≤ val a := ⟨fun a b => le_total (val b) (val a)⟩
  haveI : IsTrans AggRow fun a b => val b ≤ val a := ⟨fun _ _ _ h1 h2 => le_trans h2 h1⟩
  exact List.sorted_insertionSort _ t

theorem sortValuesDesc_perm {β : Type} [LinearOrder β] (val : AggRow → β)
    (t : List AggRow) : (sortValuesDesc val t).Perm t :=
  List.perm_insertionSort _ t

/-! ### Aggregation lemmas -/

theorem aggBy_fields (keyOf : FlightRow → Option String) (df : List FlightRow)
    (row : AggRow) (h : row ∈ aggBy keyOf df) :
    row.mean_dep_delay =
      mean_list ((df.filter fun r => decide (keyOf r = some row.key)).filterMap
        (·.dep_delay)) ∧
    row.total_cancellations =
      (df.filter fun r => decide (keyOf r = some row.key)).countP
        fun r => r.dep_time.isNone := by
  unfold aggBy at h
  obtain ⟨k, _, rfl⟩ := List.mem_map.1 h
  exact ⟨rfl, rfl⟩

/-- C2.  In every row of the route (resp. airline) aggregate table,
`mean_dep_delay` is the arithmetic mean — sum divided by count — of the
`dep_delay` values that are present in that group (`filterMap` keeps
exactly the present values, so an absent value contributes to neither the
sum nor the count), and a group with no present `dep_delay` value gets
`none` (NaN), not a default number. -/
theorem C2_group_mean (flights_df : List FlightRow) (row : AggRow) :
    (row ∈ (analyze_routes flights_df).1 →
      (((flights_df.filter fun r => decide (r.route = some row.key)).filterMap
          (·.dep_delay)) = [] → row.mean_dep_delay = none) ∧
      ∀ _h : ((flights_df.filter fun r => decide (r.route = some row.key)).filterMap
          (·.dep_delay)) ≠ [],
        row.mean_dep_delay =
          some (((flights_df.filter fun r => decide (r.route = some row.key)).filterMap
              (·.dep_delay)).sum /
            ((flights_df.filter fun r => decide (r.route = some row.key)).filterMap
              (·.dep_delay)).length)) ∧
    (row ∈ (analyze_airlines flights_df).1 →
      (((flights_df.filter fun r => decide (r.airline = some row.key)).filterMap
          (·.dep_delay)) = [] → row.mean_dep_delay = none) ∧
      ∀ _h : ((flights_df.filter fun r => decide (r.airline = some row.key)).filterMap
          (·.dep_delay)) ≠ [],
        row.mean_dep_delay =
          some (((flights_df.filter fun r => decide (r.airline = some row.key)).filterMap
              (·.dep_delay)).sum /
            ((flights_df.filter fun r => decide (r.airline = some row.key)).filterMap
              (·.dep_delay)).length)) := by
  constructor
  · intro hmem
    have h := (aggBy_fields (·.route) flights_df row hmem).1
    rw [mean_list] at h
    constructor
    · intro he
      rw [if_pos he] at h
      exact h
    · intro hne
      rw [if_neg hne] at h
      exact h
  · intro hmem
    have h := (aggBy_fields (·.airline) flights_df row hmem).1
    rw [mean_list] at h
    constructor
    · intro he
      rw [if_pos he] at h
      exact h
    · intro hne
      rw [if_neg hne] at h
      exact h

/-- C5.  In every row of the route (resp. airline) aggregate table,
`total_cancellations` counts exactly the rows of the group whose departure
time is absent; as a count it is a natural number, hence a non-negative
integer. -/
theorem C5_group_cancellations (flights_df : List FlightRow) (row : AggRow) :
    (row ∈ (analyze_routes flights_df).1 →
      row.total_cancellations =
        (flights_df.filter fun r => decide (r.route = some row.key)).countP
          (fun r => r.dep_time.isNone) ∧
      0 ≤ (row.total_cancellations : ℤ)) ∧
    (row ∈ (analyze_airlines flights_df).1 →
      row.total_cancellations =
        (flights_df.filter fun r => decide (r.airline = some row.key)).countP
          (fun r => r.dep_time.isNone) ∧
      0 ≤ (row.total_cancellations : ℤ)) := by
  constructor
  · intro hmem
    exact ⟨(aggBy_fields (·.route) flights_df row hmem).2, Int.ofNat_nonneg _⟩
  · intro hmem
    exact ⟨(aggBy_fields (·.airline) flights_df row hmem).2, Int.ofNat_nonneg _⟩

/-! ### Wind classification -/

theorem mem_wind_table (flights_weather_df : List WeatherRow) (row : WeatherRow)
    (h : row ∈ (analyze_wind_impact flights_weather_df).1) :
    ∃ r ∈ flights_weather_df,
      row = { r with wind_group := some (windGroupOf r.wind_gust) } := by
  obtain ⟨r, hr, heq⟩ := List.mem_map.1 h
  exact ⟨r, hr, heq.symm⟩

/-- C3.  Every row of the weather-joined table whose `wind_gust` is present
is assigned exactly one of the two groups, the assigned group is
`">= 10mph"` precisely when the gust is at least 10, and the boundary value
10 goes to `">= 10mph"`. -/
theorem C3_wind_partition (flights_weather_df : List WeatherRow) (row : WeatherRow)
    (hrow : row ∈ (analyze_wind_impact flights_weather_df).1) (g : ℚ)
    (hg : row.wind_gust = some g) :
    (row.wind_group = some ">= 10mph" ∨ row.wind_group = some "< 10mph") ∧
    ¬(row.wind_group = some ">= 10mph" ∧ row.wind_group = some "< 10mph") ∧
    (row.wind_group = some ">= 10mph" ↔ 10 ≤ g) ∧
    (g = 10 → row.wind_group = some ">= 10mph") := by
  obtain ⟨r, _, rfl⟩ := mem_wind_table flights_weather_df row hrow
  have hgust : r.wind_gust = some g := hg
  rw [show ({ r with wind_group := some (windGroupOf r.wind_gust) } :
      WeatherRow).wind_group = some (windGroupOf r.wind_gust) from rfl, hgust]
  rw [show windGroupOf (some g) = if 10 ≤ g then ">= 10mph" else "< 10mph" from rfl]
  by_cases h10 : 10 ≤ g
  · rw [if_pos h10]
    refine ⟨Or.inl rfl, ?_, ⟨fun _ => h10, fun _ => rfl⟩, fun _ => rfl⟩
    rintro ⟨h1, h2⟩
    rw [h1] at h2
    exact absurd (Option.some.inj h2) (by decide)
  · rw [if_neg h10]
    refine ⟨Or.inr rfl, ?_, ⟨?_, fun hle => absurd hle h10⟩, ?_⟩
    · rintro ⟨h1, h2⟩
      exact absurd (Option.some.inj h1) (by decide)
    · intro heq
      exact absurd (Option.some.inj heq) (by decide)
    · intro hgeq
      exact absurd (le_of_eq hgeq.symm) h10

/-- C9.  A row whose `wind_gust` is absent is classified `"< 10mph"` (the
Python comparison `NaN >= 10` is `False`), so every row of the
weather-joined table, with or without a gust value, gets one of the two
groups. -/
theorem C9_wind_absent_gust (flights_weather_df : List WeatherRow) (row : WeatherRow)
    (hrow : row ∈ (analyze_wind_impact flights_weather_df).1) :
    (row.wind_gust = none → row.wind_group = some "< 10mph") ∧
    (row.wind_group = some ">= 10mph" ∨ row.wind_group = some "< 10mph") := by
  obtain ⟨r, _, rfl⟩ := mem_wind_table flights_weather_df row hrow
  constructor
  · intro hnone
    have hgust : r.wind_gust = none := hnone
    rw [show ({ r with wind_group := some (windGroupOf r.wind_gust) } :
        WeatherRow).wind_group = some (windGroupOf r.wind_gust) from rfl, hgust]
    rfl
  · rw [show ({ r with wind_group := some (windGroupOf r.wind_gust) } :
        WeatherRow).wind_group = some (windGroupOf r.wind_gust) from rfl]
    cases r.wind_gust with
    | none => exact Or.inr rfl
    | some x =>
      rw [show windGroupOf (some x) = if 10 ≤ x then ">= 10mph" else "< 10mph" from rfl]
      by_cases h10 : 10 ≤ x
      · rw [if_pos h10]
        exact Or.inl rfl
      · rw [if_neg h10]
        exact Or.inr rfl

/-! ### Preprocessing -/

/-- C6.  On a non-empty table whose rows all carry `origin` and `dest`, the
preprocessor relates input and output row by row (so there is exactly one
`route` value per row), the new `route` is `origin ++ "-" ++ dest`, and
every other field is unchanged. -/
theorem C6_preprocess_route (flights_df : List FlightRow)
    (_hne : flights_df ≠ [])
    (hpresent : ∀ r ∈ flights_df, r.origin ≠ none ∧ r.dest ≠ none) :
    (preprocess_data flights_df).length = flights_df.length ∧
    List.Forall₂ (fun r r' =>
        (∃ o d, r.origin = some o ∧ r.dest = some d ∧
          r'.route = some (o ++ "-" ++ d)) ∧
        r'.origin = r.origin ∧ r'.dest = r.dest ∧ r'.airline = r.airline ∧
        r'.dep_time = r.dep_time ∧ r'.dep_delay = r.dep_delay)
      flights_df (preprocess_data flights_df) := by
  refine ⟨List.length_map flights_df addRoute, ?_⟩
  clear _hne
  revert hpresent
  induction flights_df with
  | nil => exact fun _ => List.Forall₂.nil
  | cons r t ih =>
    intro hpresent
    refine List.Forall₂.cons ?_
      (ih fun x hx => hpresent x (List.mem_cons_of_mem r hx))
    obtain ⟨ho, hd⟩ := hpresent r (List.mem_cons_self r t)
    obtain ⟨o, hoeq⟩ := Option.ne_none_iff_exists'.mp ho
    obtain ⟨d, hdeq⟩ := Option.ne_none_iff_exists'.mp hd
    refine ⟨⟨o, d, hoeq, hdeq, ?_⟩, rfl, rfl, rfl, rfl, rfl⟩
    simp [addRoute, hoeq, hdeq]

/-- C10.  In the state-passing model of the in-place column assignments:
after `analyze_wind_impact` the caller's weather table (the first returned
component) has, row for row, a new `wind_group` column holding the
classifier's value, with every other field unchanged; and the table
`preprocess_data` returns is the caller's table with the `route` column
set in place, every other field unchanged. -/
theorem C10_in_place_columns (flights_weather_df : List WeatherRow)
    (flights_df : List FlightRow) :
    List.Forall₂ (fun r r' =>
        r'.wind_group = some (windGroupOf r.wind_gust) ∧
        r'.origin = r.origin ∧ r'.dest = r.dest ∧ r'.airline = r.airline ∧
        r'.dep_time = r.dep_time ∧ r'.dep_delay = r.dep_delay ∧
        r'.wind_gust = r.wind_gust)
      flights_weather_df (analyze_wind_impact flights_weather_df).1 ∧
    List.Forall₂ (fun r r' =>
        r'.route = (match r.origin, r.dest with
          | some o, some d => some (o ++ "-" ++ d)
          | _, _ => none) ∧
        r'.origin = r.origin ∧ r'.dest = r.dest ∧ r'.airline = r.airline ∧
        r'.dep_time = r.dep_time ∧ r'.dep_delay = r.dep_delay)
      flights_df (preprocess_data flights_df) := by
  constructor
  · induction flights_weather_df with
    | nil => exact List.Forall₂.nil
    | cons r t ih =>
      exact List.Forall₂.cons ⟨rfl, rfl, rfl, rfl, rfl, rfl, rfl⟩ ih
  · induction flights_df with
    | nil => exact List.Forall₂.nil
    | cons r t ih =>
      exact List.Forall₂.cons ⟨rfl, rfl, rfl, rfl, rfl, rfl⟩ ih

/-! ### Report generation -/

theorem locMean_ok_iff (ws : List WindSummaryRow) (k : String)
    (hkeys : (ws.map (·.key)).Nodup) :
    (∃ m, locMean ws k = Except.ok m) ↔ ∃ r ∈ ws, r.key = k := by
  unfold locMean
  cases hf : ws.filter (fun r => decide (r.key = k)) with
  | nil =>
    constructor
    · rintro ⟨m, hm⟩
      exact absurd hm (by simp)
    · rintro ⟨r, hr, hk⟩
      have hmem : r ∈ ws.filter (fun r => decide (r.key = k)) :=
        List.mem_filter.2 ⟨hr, by simp [hk]⟩
      rw [hf] at hmem
      cases hmem
  | cons r rest =>
    cases rest with
    | nil =>
      have hmem : r ∈ ws.filter (fun r => decide (r.key = k)) := by
        rw [hf]
        exact List.mem_cons_self r []
      constructor
      · intro _
        exact ⟨r, (List.mem_filter.1 hmem).1, by simpa using (List.mem_filter.1 hmem).2⟩
      · intro _
        exact ⟨r.mean, rfl⟩
    | cons r2 rest2 =>
      exfalso
      have hmem1 : r ∈ ws.filter (fun r => decide (r.key = k)) := by
        rw [hf]
        exact List.mem_cons_self _ _
      have hmem2 : r2 ∈ ws.filter (fun r => decide (r.key = k)) := by
        rw [hf]
        exact List.mem_cons_of_mem _ (List.mem_cons_self _ _)
      have hk1 : r.key = k := by simpa using (List.mem_filter.1 hmem1).2
      have hk2 : r2.key = k := by simpa using (List.mem_filter.1 hmem2).2
      have hsub : ((ws.filter (fun r => decide (r.key = k))).map (·.key)).Nodup :=
        hkeys.sublist ((List.filter_sublist ws).map (·.key))
      rw [hf] at hsub
      rcases List.nodup_cons.1 hsub with ⟨hnotmem, _⟩
      refine hnotmem (List.mem_map.2 ⟨r2, List.mem_cons_self _ _, ?_⟩)
      show r2.key = r.key
      rw [hk1, hk2]

/-- C7.  With ranked tables whose top-1 rows exist and a wind summary whose
group keys are unique (as `groupby` guarantees), the report generator
succeeds exactly when both expected wind groups `">= 10mph"` and
`"< 10mph"` are present; a missing key makes the lookup failure propagate,
so no output (in particular no file content) is produced. -/
theorem C7_report_success_iff
    (routes_stats airlines_stats : List AggRow × List AggRow × List AggRow)
    (wind_summary : List WindSummaryRow)
    (hkeys : (wind_summary.map (·.key)).Nodup)
    (h1 : routes_stats.2.1 ≠ []) (h2 : routes_stats.2.2 ≠ [])
    (h3 : airlines_stats.2.1 ≠ []) :
    (∃ out, generate_summary_report routes_stats airlines_stats wind_summary =
        Except.ok out) ↔
      ((∃ r ∈ wind_summary, r.key = ">= 10mph") ∧
        (∃ r ∈ wind_summary, r.key = "< 10mph")) := by
  unfold generate_summary_report
  cases hh1 : routes_stats.2.1 with
  | nil => exact absurd hh1 h1
  | cons wr tr =>
  cases hh2 : routes_stats.2.2 with
  | nil => exact absurd hh2 h2
  | cons wc tc =>
  cases hh3 : airlines_stats.2.1 with
  | nil => exact absurd hh3 h3
  | cons wa ta =>
  cases hhi : locMean wind_summary ">= 10mph" with
  | error e =>
    constructor
    · rintro ⟨out, hout⟩
      exact absurd hout (by simp)
    · rintro ⟨hex1, _⟩
      obtain ⟨m, hm⟩ := (locMean_ok_iff wind_summary ">= 10mph" hkeys).2 hex1
      rw [hhi] at hm
      exact absurd hm (by simp)
  | ok hi =>
    cases hlo : locMean wind_summary "< 10mph" with
    | error e =>
      constructor
      · rintro ⟨out, hout⟩
        exact absurd hout (by simp)
      · rintro ⟨_, hex2⟩
        obtain ⟨m, hm⟩ := (locMean_ok_iff wind_summary "< 10mph" hkeys).2 hex2
        rw [hlo] at hm
        exact absurd hm (by simp)
    | ok lo =>
      constructor
      · intro _
        exact ⟨(locMean_ok_iff wind_summary ">= 10mph" hkeys).1 ⟨hi, hhi⟩,
          (locMean_ok_iff wind_summary "< 10mph" hkeys).1 ⟨lo, hlo⟩⟩
      · intro _
        exact ⟨_, rfl⟩

/-- C4 (amended).  Whenever the report generator succeeds, the file gets
exactly the joined report text, while standard output gets that text with a
leading newline (from `print("\n" + report_text)`) and a trailing newline
(appended by `print`); printed and written text therefore differ exactly by
those two newlines, not byte for byte equal. -/
theorem C4_report_print_vs_file
    (routes_stats airlines_stats : List AggRow × List AggRow × List AggRow)
    (wind_summary : List WindSummaryRow) (printed written : String)
    (h : generate_summary_report routes_stats airlines_stats wind_summary =
      Except.ok (printed, written)) :
    printed = "\n" ++ written ++ "\n" := by
  unfold generate_summary_report at h
  repeat' split at h
  all_goals
    first
      | (simp only [Except.ok.injEq, Prod.mk.injEq] at h
         rw [← h.1, ← h.2])
      | exact absurd h (by simp)

/-- C8.  The pipeline is a pure function of its two input tables: running it
twice on identical inputs yields identical route, airline and wind
aggregate tables and byte-identical report output. -/
theorem C8_pipeline_deterministic (f1 f2 : List FlightRow)
    (w1 w2 : List WeatherRow) (hf : f1 = f2) (hw : w1 = w2) :
    pipeline f1 w1 = pipeline f2 w2 := by
  rw [hf, hw]

/-! ### Concrete example tables (the worked examples of the spec) -/

/-- Two flights on the route `JFK-LAX`: one delayed 10 minutes, one
cancelled (absent departure time) with a 30-minute delay. -/
def exampleFlights : List FlightRow :=
  [ { origin := some "JFK", dest := some "LAX", airline := some "AA",
      dep_time := some 1200, dep_delay := some 10 },
    { origin := some "JFK", dest := some "LAX", airline := some "AA",
      dep_time := none, dep_delay := some 30 } ]

/-- The example flights after preprocessing. -/
def exampleProcessed : List FlightRow :=
  preprocess_data exampleFlights

/-- Weather-joined rows with gusts 9, 10 and 20, plus one row with an
absent gust value. -/
def exampleWeather : List WeatherRow :=
  [ { origin := some "JFK", dest := some "SEA", airline := some "AA",
      dep_time := some 900, dep_delay := some 5, wind_gust := some 9 },
    { origin := some "JFK", dest := some "SEA", airline := some "AA",
      dep_time := some 930, dep_delay := some 15, wind_gust := some 10 },
    { origin := some "JFK", dest := some "SEA", airline := some "AA",
      dep_time := some 945, dep_delay := some 25, wind_gust := some 20 },
    { origin := some "PDX", dest := some "SEA", airline := some "AA",
      dep_time := none, dep_delay := none, wind_gust := none } ]

/-- The boundary-gust example row as it appears in the classified table. -/
def exampleGustTenRow : WeatherRow :=
  { origin := some "JFK", dest := some "SEA", airline := some "AA",
    dep_time := some 930, dep_delay := some 15, wind_gust := some 10,
    wind_group := some ">= 10mph" }

/-- The absent-gust example row as it appears in the classified table. -/
def exampleNoGustRow : WeatherRow :=
  { origin := some "PDX", dest := some "SEA", airline := some "AA",
    dep_time := none, dep_delay := none, wind_gust := none,
    wind_group := some "< 10mph" }

/-- The wind summary of the spec's example: `"< 10mph"` mean 5 over 1 row,
`">= 10mph"` mean 20 over 2 rows. -/
def exampleWindSummary : List WindSummaryRow :=
  [ { key := "< 10mph", mean := some 5, count := 1 },
    { key := ">= 10mph", mean := some 20, count := 2 } ]

/-- The route statistics of the example flights. -/
def exampleRoutesStats : List AggRow × List AggRow × List AggRow :=
  analyze_routes exampleProcessed

/-- The airline statistics of the example flights. -/
def exampleAirlinesStats : List AggRow × List AggRow × List AggRow :=
  analyze_airlines exampleProcessed

/-- The aggregate row the example flights produce: mean delay
`(10 + 30) / 2 = 20`, one cancellation. -/
def exampleAggRow : AggRow :=
  { key := "JFK-LAX", mean_dep_delay := some 20, total_cancellations := 1 }

/-- The report text the example data produces. -/
def exampleReportText : String :=
  match generate_summary_report exampleRoutesStats exampleAirlinesStats
      exampleWindSummary with
  | Except.ok out => out.2
  | Except.error _ => ""

/-! ### Witnesses and counterexample -/

set_option maxRecDepth 40000

/-- Witness for C2 at the example table and its `JFK-LAX` aggregate row. -/
theorem C2_group_mean_witness :
    exampleAggRow.mean_dep_delay =
      some (((exampleProcessed.filter fun r =>
            decide (r.route = some exampleAggRow.key)).filterMap (·.dep_delay)).sum /
        ((exampleProcessed.filter fun r =>
            decide (r.route = some exampleAggRow.key)).filterMap (·.dep_delay)).length) :=
  ((C2_group_mean exampleProcessed exampleAggRow).1
      (by with_unfolding_all decide)).2
    (by with_unfolding_all decide)

/-- Witness for C3 at the boundary gust value 10. -/
theorem C3_wind_partition_witness :
    exampleGustTenRow.wind_group = some ">= 10mph" :=
  (C3_wind_partition exampleWeather exampleGustTenRow
      (by with_unfolding_all decide) 10 rfl).2.2.2 rfl

/-- Witness for C5 at the example table and its `JFK-LAX` aggregate row. -/
theorem C5_group_cancellations_witness :
    exampleAggRow.total_cancellations =
      (exampleProcessed.filter fun r =>
        decide (r.route = some exampleAggRow.key)).countP
        (fun r => r.dep_time.isNone) :=
  ((C5_group_cancellations exampleProcessed exampleAggRow).1
      (by with_unfolding_all decide)).1

/-- Witness for C6 at the example flights table. -/
theorem C6_preprocess_route_witness :
    (preprocess_data exampleFlights).length = exampleFlights.length :=
  (C6_preprocess_route exampleFlights (by with_unfolding_all decide)
      (by with_unfolding_all decide)).1

/-- Witness for C7: on the example inputs, whose wind summary carries both
group keys, report generation succeeds. -/
theorem C7_report_success_iff_witness :
    (generate_summary_report exampleRoutesStats exampleAirlinesStats
        exampleWindSummary).toOption.isSome = true := by
  obtain ⟨out, hout⟩ :=
    (C7_report_success_iff exampleRoutesStats exampleAirlinesStats exampleWindSummary
        (by with_unfolding_all decide) (by with_unfolding_all decide)
        (by with_unfolding_all decide) (by with_unfolding_all decide)).2
      ⟨by with_unfolding_all decide, by with_unfolding_all decide⟩
  rw [hout]
  rfl

/-- Counterexample to C4 as stated: on the example inputs the generator
succeeds, yet the text printed to standard output is not byte for byte the
text written to the file (the printed text has an extra leading and
trailing newline). -/
theorem C4_not_byte_identical :
    (generate_summary_report exampleRoutesStats exampleAirlinesStats
        exampleWindSummary).toOption.map Prod.fst ≠
      (generate_summary_report exampleRoutesStats exampleAirlinesStats
        exampleWindSummary).toOption.map Prod.snd := by
  with_unfolding_all decide

/-- Witness for the amended C4 at the example inputs. -/
theorem C4_report_print_vs_file_witness :
    "\n" ++ exampleReportText ++ "\n" = "\n" ++ exampleReportText ++ "\n" :=
  C4_report_print_vs_file exampleRoutesStats exampleAirlinesStats exampleWindSummary
    ("\n" ++ exampleReportText ++ "\n") exampleReportText
    (by with_unfolding_all rfl)

/-- Witness for C8 at the example inputs. -/
theorem C8_pipeline_deterministic_witness :
    pipeline exampleFlights exampleWeather = pipeline exampleFlights exampleWeather :=
  C8_pipeline_deterministic exampleFlights exampleFlights exampleWeather exampleWeather
    rfl rfl

/-- Witness for C9 at the absent-gust example row. -/
theorem C9_wind_absent_gust_witness :
    exampleNoGustRow.wind_group = some "< 10mph" :=
  (C9_wind_absent_gust exampleWeather exampleNoGustRow
      (by with_unfolding_all decide)).1 rfl

end AeroInsights
